import Mathlib

/-!
Verification of the flow_bot conversation flow engine.

Shallow embedding of the repository sources:
  - src/flows/interview_flow.py  (namespace InterviewFlow)
  - src/main.py                  (namespace Main)
  - src/handlers/event_handlers.py (namespace Handlers)

Python dictionaries of string keys and string values are embedded as
association lists `List (String × String)`; dictionary subscript access,
which raises KeyError when the key is missing, is embedded as
`getItem : ... → Except String String`.  Fallible Python code is embedded
in the `Except String` monad; a raised exception is `.error msg`.
-/

namespace FlowBot

/-- Association-list model of a Python string-to-string dict. -/
abbrev StrDict := List (String × String)

/-- Python dict subscript `m[k]`: raises KeyError when the key is absent. -/
def getItem (m : StrDict) (k : String) : Except String String :=
  match m.find? (fun p => p.1 == k) with
  | some p => .ok p.2
  | none => .error ("KeyError: " ++ k)

/-- Python dict assignment `m[k] = v`: replaces an existing binding, else appends. -/
def setItem (m : StrDict) (k v : String) : StrDict :=
  if m.any (fun p => p.1 == k) then
    m.map (fun p => if p.1 == k then (k, v) else p)
  else
    m ++ [(k, v)]

/-- FlowArgs from pipecat_flows: the argument dict passed to a function handler. -/
abbrev FlowArgs := StrDict

/-- InterviewData (identical classes in src/flows/interview_flow.py lines 15-39
and src/main.py lines 17-41): central mutable store; both string fields are
initialized to the empty string. -/
structure InterviewData where
  name : String
  startup_history : String
deriving DecidableEq

/-- Constructor body of InterviewData.__init__: both fields empty. -/
def InterviewData.init : InterviewData := ⟨"", ""⟩

/-- InterviewData.to_dict: a fresh dict with the two fields. -/
def InterviewData.to_dict (d : InterviewData) : StrDict :=
  [("name", d.name), ("startup_history", d.startup_history)]

/-- InterviewData.is_complete: Python `bool(self.name and self.startup_history)`,
true exactly when both strings are non-empty (truthiness of strings). -/
def InterviewData.is_complete (d : InterviewData) : Bool :=
  !(d.name == "") && !(d.startup_history == "")

/-- NameCollectionResult (FlowResult subclass, both files). -/
structure NameCollectionResult where
  name : String
deriving DecidableEq

/-- StartupHistoryResult (FlowResult subclass, both files). -/
structure StartupHistoryResult where
  startup_history : String
deriving DecidableEq

/-- EndCallResult (FlowResult subclass, both files). -/
structure EndCallResult where
  status : String
deriving DecidableEq

/-- One chat message entry of a node configuration (role and content keys). -/
structure Message where
  role : String
  content : String
deriving DecidableEq

/-- One property of a JSON-schema parameters object: its key, its type string
and its description string. -/
structure ParamSpec where
  param_name : String
  param_type : String
  description : String
deriving DecidableEq

/-- The inner "function" dict of a node function entry.  The Python handler
and transition_callback values are function references; they are embedded
here by qualified name, and their behavior is embedded separately as the
handler and callback definitions below. -/
structure FunctionSchema where
  fn_name : String
  description : String
  parameters_type : String
  properties : List ParamSpec
  required : Option (List String)
  handler_ref : String
  transition_ref : String
deriving DecidableEq

/-- One entry of a node's "functions" list. -/
structure FunctionEntry where
  entry_type : String
  function : FunctionSchema
deriving DecidableEq

/-- One entry of a node's "post_actions" list. -/
structure PostAction where
  action_type : String
deriving DecidableEq

/-- NodeConfig dict.  Keys absent from a given node's dict in the source
("role_messages", "post_actions") are embedded as `none`. -/
structure NodeConfig where
  role_messages : Option (List Message)
  task_messages : List Message
  functions : List FunctionEntry
  post_actions : Option (List PostAction)
deriving DecidableEq

/-- Projection of a node configuration that keeps messages, function schemas
and post-actions but drops the bound handler and transition-callback
references (which are the only parts that differ between the two source
modules). -/
def FunctionEntry.spec_view (e : FunctionEntry) :
    String × String × String × String × List ParamSpec × Option (List String) :=
  (e.entry_type, e.function.fn_name, e.function.description,
    e.function.parameters_type, e.function.properties, e.function.required)

/-- Handler-independent view of a node configuration. -/
def NodeConfig.public_view (n : NodeConfig) :
    Option (List Message) × List Message ×
    List (String × String × String × String × List ParamSpec × Option (List String)) ×
    Option (List PostAction) :=
  (n.role_messages, n.task_messages, n.functions.map FunctionEntry.spec_view,
    n.post_actions)

/-- Modelled from the spec: FlowManager is the external pipecat_flows runtime
object that the repository code receives.  Per spec section 4.3, activate
(set_node) sets the current node; the repository reads and writes
`flow_manager.state` (a session-state dict) and reads
`flow_manager.current_node`.  Before initialization no node is current. -/
structure FlowManager where
  state : StrDict
  current_node : Option String
  node : Option NodeConfig
  init_done : Bool
deriving DecidableEq

/-- Modelled from the spec: `flow_manager.set_node(id, cfg)` activates the
node: it sets the current node identifier and configuration (spec section
4.3: activate(node) sets currentNode = node). -/
def FlowManager.set_node (fm : FlowManager) (node_id : String) (cfg : NodeConfig) :
    FlowManager :=
  { fm with current_node := some node_id, node := some cfg }

namespace InterviewFlow

/-- create_initial_node (src/flows/interview_flow.py lines 114-158). -/
def create_initial_node (_u : Unit) : NodeConfig :=
  { role_messages := some [
      { role := "system"
        content := "You are a friendly interviewer collecting information about entrepreneurs and their startup experiences. Your responses will be converted to audio, so keep them conversational and avoid special characters. Always use the available functions to progress the conversation." }]
    task_messages := [
      { role := "system"
        content := "Greet the user warmly and ask for their name. Explain that you\x27re conducting a brief interview about their startup experience." }]
    functions := [
      { entry_type := "function"
        function := {
          fn_name := "collect_name"
          description := "Record the user\x27s name"
          parameters_type := "object"
          properties := [⟨"name", "string", "The user\x27s full name"⟩]
          required := some ["name"]
          handler_ref := "flows.interview_flow.collect_name"
          transition_ref := "flows.interview_flow.handle_name_collection" } }]
    post_actions := none }

/-- create_startup_history_node (src/flows/interview_flow.py lines 161-196). -/
def create_startup_history_node (_u : Unit) : NodeConfig :=
  { role_messages := none
    task_messages := [
      { role := "system"
        content := "Now ask about their startup history. Be encouraging and ask them to share details about any startups they\x27ve founded, worked at, or been involved with. Ask about their roles, what the companies did, outcomes, and key learnings." }]
    functions := [
      { entry_type := "function"
        function := {
          fn_name := "collect_startup_history"
          description := "Record the user\x27s startup history and experiences"
          parameters_type := "object"
          properties := [⟨"startup_history", "string", "Detailed description of the user\x27s startup experience, companies, roles, and outcomes"⟩]
          required := some ["startup_history"]
          handler_ref := "flows.interview_flow.collect_startup_history"
          transition_ref := "flows.interview_flow.handle_startup_history_collection" } }]
    post_actions := none }

/-- create_summary_node (src/flows/interview_flow.py lines 199-227). -/
def create_summary_node (_u : Unit) : NodeConfig :=
  { role_messages := none
    task_messages := [
      { role := "system"
        content := "Thank the user for sharing their information. Provide a brief, encouraging summary of what they shared. Then ask if there\x27s anything else they\x27d like to add before ending the call." }]
    functions := [
      { entry_type := "function"
        function := {
          fn_name := "end_call"
          description := "Complete the interview and end the call"
          parameters_type := "object"
          properties := []
          required := none
          handler_ref := "flows.interview_flow.end_call"
          transition_ref := "flows.interview_flow.handle_end_call" } }]
    post_actions := none }

/-- create_end_node (src/flows/interview_flow.py lines 230-243). -/
def create_end_node (_u : Unit) : NodeConfig :=
  { role_messages := none
    task_messages := [
      { role := "system"
        content := "Give a final thank you and mention that their information has been recorded. End the conversation warmly." }]
    functions := []
    post_actions := some [⟨"end_conversation"⟩] }

/-- collect_name handler (src/flows/interview_flow.py lines 61-66): reads
`args["name"]` (KeyError when absent), assigns it to the session name field,
and returns NameCollectionResult(name=name).  No emptiness validation. -/
def collect_name (args : FlowArgs) (d : InterviewData) :
    Except String (InterviewData × NameCollectionResult) := do
  let n ← getItem args "name"
  pure ({ d with name := n }, ⟨n⟩)

/-- collect_startup_history handler (src/flows/interview_flow.py lines 69-74). -/
def collect_startup_history (args : FlowArgs) (d : InterviewData) :
    Except String (InterviewData × StartupHistoryResult) := do
  let h ← getItem args "startup_history"
  pure ({ d with startup_history := h }, ⟨h⟩)

/-- end_call handler (src/flows/interview_flow.py lines 77-88): reads the
to_dict snapshot (subscripting the two keys for the log lines), prints the
summary, and returns EndCallResult(status="completed"); the session data is
not written. -/
def end_call (_args : FlowArgs) (d : InterviewData) :
    Except String (InterviewData × EndCallResult) := do
  let data := d.to_dict
  let _nm ← getItem data "name"
  let _hist ← getItem data "startup_history"
  pure (d, ⟨"completed"⟩)

/-- handle_name_collection transition callback (src/flows/interview_flow.py
lines 92-97): mirrors result["name"] into flow_manager.state, then
set_node("startup_history", create_startup_history_node()). -/
def handle_name_collection (_args : FlowArgs) (result : NameCollectionResult)
    (fm : FlowManager) : FlowManager :=
  ({ fm with state := setItem fm.state "name" result.name }).set_node
    "startup_history" (create_startup_history_node ())

/-- handle_startup_history_collection transition callback
(src/flows/interview_flow.py lines 100-105). -/
def handle_startup_history_collection (_args : FlowArgs)
    (result : StartupHistoryResult) (fm : FlowManager) : FlowManager :=
  ({ fm with state := setItem fm.state "startup_history" result.startup_history
    }).set_node "summary" (create_summary_node ())

/-- handle_end_call transition callback (src/flows/interview_flow.py
lines 108-110): set_node("end", create_end_node()). -/
def handle_end_call (_args : FlowArgs) (_result : EndCallResult)
    (fm : FlowManager) : FlowManager :=
  fm.set_node "end" (create_end_node ())

end InterviewFlow

namespace Main

/-- RTVIServerMessageFrame payload (src/main.py lines 53-64): the
data_payload dict.  The nested "data" dict's three entries appear as the
last three fields.  In the source the node value may be None when the
explicit argument is falsy and the flow manager has no current node, hence
the Option type. -/
structure RtviFrame where
  payload_type : String
  function : String
  node : Option String
  timestamp : Int
  result_fields : StrDict
  args_fields : StrDict
  interview_snapshot : StrDict

/-- Modelled from the spec: the external effects reached from inside the
try block of push_rtvi_data — the event-loop clock read and
task.queue_frame delivery to the observer sink (spec section 6: delivery is
best-effort).  Either may raise, which is embedded as `.error`. -/
structure RtviEffects where
  loop_time : Except String Int
  queue_frame : RtviFrame → Except String Unit

/-- Body of the try block of push_rtvi_data (src/main.py lines 52-69):
build the data_payload (node falls back to flow_manager.current_node when
the explicit current_node argument is falsy), build the frame, queue it,
log success. -/
def try_push (eff : RtviEffects) (fm : FlowManager) (function_name : String)
    (result_fields : StrDict) (args_fields : StrDict) (d : InterviewData)
    (current_node : Option String) : Except String String := do
  let ts ← eff.loop_time
  let node : Option String :=
    match current_node with
    | some n => if n == "" then fm.current_node else some n
    | none => fm.current_node
  let frame : RtviFrame :=
    ⟨"data_collected", function_name, node, ts, result_fields, args_fields,
      d.to_dict⟩
  eff.queue_frame frame
  pure ("Pushed RTVI data for " ++ function_name)

/-- push_rtvi_data (src/main.py lines 50-72): runs the try block; any
exception is caught and logged (`except Exception as e: logger.error(...)`)
and the function returns normally.  The returned string is the log line. -/
def push_rtvi_data (eff : RtviEffects) (fm : FlowManager)
    (function_name : String) (result_fields : StrDict) (args_fields : StrDict)
    (d : InterviewData) (current_node : Option String) : Except String String :=
  match try_push eff fm function_name result_fields args_fields d current_node with
  | .ok msg => .ok msg
  | .error e => .ok ("Failed to push RTVI data: " ++ e)

/-- collect_name handler (src/main.py lines 89-105): same mutation and
result as the flows version, then push_rtvi_data with
current_node="initial" before returning.  The snapshot pushed is taken
after the mutation.  The third component is the push log line. -/
def collect_name (eff : RtviEffects) (fm : FlowManager) (args : FlowArgs)
    (d : InterviewData) :
    Except String (InterviewData × NameCollectionResult × String) := do
  let n ← getItem args "name"
  let d2 : InterviewData := { d with name := n }
  let result : NameCollectionResult := ⟨n⟩
  let log ← push_rtvi_data eff fm "collect_name" [("name", n)] args d2
    (some "initial")
  pure (d2, result, log)

/-- collect_startup_history handler (src/main.py lines 108-124). -/
def collect_startup_history (eff : RtviEffects) (fm : FlowManager)
    (args : FlowArgs) (d : InterviewData) :
    Except String (InterviewData × StartupHistoryResult × String) := do
  let h ← getItem args "startup_history"
  let d2 : InterviewData := { d with startup_history := h }
  let result : StartupHistoryResult := ⟨h⟩
  let log ← push_rtvi_data eff fm "collect_startup_history"
    [("startup_history", h)] args d2 (some "startup_history")
  pure (d2, result, log)

/-- end_call handler (src/main.py lines 127-148): reads the snapshot for
the log lines, builds EndCallResult(status="completed"), pushes with
current_node="summary", returns the result; session data is not written. -/
def end_call (eff : RtviEffects) (fm : FlowManager) (args : FlowArgs)
    (d : InterviewData) :
    Except String (InterviewData × EndCallResult × String) := do
  let data := d.to_dict
  let _nm ← getItem data "name"
  let _hist ← getItem data "startup_history"
  let result : EndCallResult := ⟨"completed"⟩
  let log ← push_rtvi_data eff fm "end_call" [("status", "completed")] args d
    (some "summary")
  pure (d, result, log)

/-- create_initial_node (src/main.py lines 177-220): identical to the flows
version except that the bound handler is the main module's collect_name. -/
def create_initial_node (_u : Unit) : NodeConfig :=
  { role_messages := some [
      { role := "system"
        content := "You are a friendly interviewer collecting information about entrepreneurs and their startup experiences. Your responses will be converted to audio, so keep them conversational and avoid special characters. Always use the available functions to progress the conversation." }]
    task_messages := [
      { role := "system"
        content := "Greet the user warmly and ask for their name. Explain that you\x27re conducting a brief interview about their startup experience." }]
    functions := [
      { entry_type := "function"
        function := {
          fn_name := "collect_name"
          description := "Record the user\x27s name"
          parameters_type := "object"
          properties := [⟨"name", "string", "The user\x27s full name"⟩]
          required := some ["name"]
          handler_ref := "main.collect_name"
          transition_ref := "main.handle_name_collection" } }]
    post_actions := none }

/-- create_startup_history_node (src/main.py lines 223-258). -/
def create_startup_history_node (_u : Unit) : NodeConfig :=
  { role_messages := none
    task_messages := [
      { role := "system"
        content := "Now ask about their startup history. Be encouraging and ask them to share details about any startups they\x27ve founded, worked at, or been involved with. Ask about their roles, what the companies did, outcomes, and key learnings." }]
    functions := [
      { entry_type := "function"
        function := {
          fn_name := "collect_startup_history"
          description := "Record the user\x27s startup history and experiences"
          parameters_type := "object"
          properties := [⟨"startup_history", "string", "Detailed description of the user\x27s startup experience, companies, roles, and outcomes"⟩]
          required := some ["startup_history"]
          handler_ref := "main.collect_startup_history"
          transition_ref := "main.handle_startup_history_collection" } }]
    post_actions := none }

/-- create_summary_node (src/main.py lines 261-289). -/
def create_summary_node (_u : Unit) : NodeConfig :=
  { role_messages := none
    task_messages := [
      { role := "system"
        content := "Thank the user for sharing their information. Provide a brief, encouraging summary of what they shared. Then ask if there\x27s anything else they\x27d like to add before ending the call." }]
    functions := [
      { entry_type := "function"
        function := {
          fn_name := "end_call"
          description := "Complete the interview and end the call"
          parameters_type := "object"
          properties := []
          required := none
          handler_ref := "main.end_call"
          transition_ref := "main.handle_end_call" } }]
    post_actions := none }

/-- create_end_node (src/main.py lines 292-305). -/
def create_end_node (_u : Unit) : NodeConfig :=
  { role_messages := none
    task_messages := [
      { role := "system"
        content := "Give a final thank you and mention that their information has been recorded. End the conversation warmly." }]
    functions := []
    post_actions := some [⟨"end_conversation"⟩] }

end Main

namespace Handlers

/-- Whole-session state seen by the event handlers of
src/handlers/event_handlers.py: the global interview_data instance of
flows.interview_flow, the flow manager, the pipeline task's cancelled flag,
and whether transcription capture was requested. -/
structure SysState where
  data : InterviewData
  fm : FlowManager
  task_cancelled : Bool
  transcription_captured : Bool
deriving DecidableEq

/-- Session state at process start: fresh InterviewData, uninitialized flow
manager with an empty state dict and no current node, task running. -/
def fresh_state : SysState :=
  ⟨InterviewData.init, ⟨[], none, none, false⟩, false, false⟩

/-- EventHandlers.on_first_participant_joined
(src/handlers/event_handlers.py lines 23-32): captures transcription, calls
flow_manager.initialize(), then set_node("initial", create_initial_node()).
The initialize call goes to the external pipecat_flows runtime; the
repository contains no guard around it and no AlreadyInitialized error, and
the spec (section 4.4) notes the idempotency guard is not explicit in
source, so the call is embedded as unconditionally setting the init flag. -/
def on_first_participant_joined (st : SysState) : SysState :=
  let fm1 : FlowManager := { st.fm with init_done := true }
  { st with
    transcription_captured := true
    fm := fm1.set_node "initial" (InterviewFlow.create_initial_node ()) }

/-- EventHandlers.on_participant_left (src/handlers/event_handlers.py lines
34-54): takes the to_dict snapshot, subscripts its two keys to build the
report lines (substituting "Not provided" for falsy values, as
`data["name"] or "Not provided"` does), then cancels the pipeline task.
Returns the snapshot, the report lines, and the new state. -/
def on_participant_left (st : SysState) :
    Except String (StrDict × List String × SysState) := do
  let data := st.data.to_dict
  let nm ← getItem data "name"
  let hist ← getItem data "startup_history"
  let lines : List String :=
    ["Name: " ++ (if nm == "" then "Not provided" else nm),
     "Startup History: " ++ (if hist == "" then "Not provided" else hist)]
  pure (data, lines, { st with task_cancelled := true })

/-- A function call arriving from the assistant, routed by name. -/
inductive FnCall
  | collect_name (args : FlowArgs)
  | collect_startup_history (args : FlowArgs)
  | end_call (args : FlowArgs)

/-- Modelled from the spec: the function-call routing of the external
pipecat_flows runtime.  The repository wires each function entry to its
handler and transition_callback (src/flows/interview_flow.py) and performs
no validation that the called function is declared on the active node —
spec section 9 flags exactly this permissiveness.  Dispatch therefore runs
the named handler on the session data and, on success, its transition
callback on the flow manager, regardless of the current node. -/
def dispatch (st : SysState) (c : FnCall) : Except String SysState :=
  match c with
  | .collect_name args => do
      let (d2, r) ← InterviewFlow.collect_name args st.data
      pure { st with data := d2
                     fm := InterviewFlow.handle_name_collection args r st.fm }
  | .collect_startup_history args => do
      let (d2, r) ← InterviewFlow.collect_startup_history args st.data
      pure { st with data := d2
                     fm := InterviewFlow.handle_startup_history_collection args r st.fm }
  | .end_call args => do
      let (d2, r) ← InterviewFlow.end_call args st.data
      pure { st with data := d2
                     fm := InterviewFlow.handle_end_call args r st.fm }

/-- The full valid session: join, then the three function calls in order. -/
def run_interview (n h : String) : Except String SysState :=
  dispatch (on_first_participant_joined fresh_state)
      (.collect_name [("name", n)]) >>= fun st1 =>
    dispatch st1 (.collect_startup_history [("startup_history", h)]) >>= fun st2 =>
      dispatch st2 (.end_call [])

end Handlers

/-- Projection dropping the log-line component returned by the main-module
handlers, leaving the session data and the handler result. -/
def drop_log {α β : Type} (x : Except String (α × β × String)) :
    Except String (α × β) :=
  x.map (fun t => (t.1, t.2.1))

theorem push_rtvi_isOk (eff : Main.RtviEffects) (fm : FlowManager)
    (fname : String) (res args : StrDict) (d : InterviewData)
    (cn : Option String) :
    ∃ msg, Main.push_rtvi_data eff fm fname res args d cn = Except.ok msg := by
  cases htp : Main.try_push eff fm fname res args d cn with
  | error e =>
      exact ⟨"Failed to push RTVI data: " ++ e,
        by simp [Main.push_rtvi_data, htp]⟩
  | ok m => exact ⟨m, by simp [Main.push_rtvi_data, htp]⟩

/-- Claim C1: running collect_name, collect_startup_history, end_call with
non-empty arguments n and h on a fresh session succeeds, leaves the session
data equal to the pair of supplied arguments, and makes is_complete true.
The final flow-manager state also mirrors both values and sits at the end
node. -/
theorem c1_valid_sequence_union (n h : String) (hn : n ≠ "") (hh : h ≠ "") :
    Handlers.run_interview n h =
      .ok ⟨⟨n, h⟩,
        ⟨[("name", n), ("startup_history", h)], some "end",
          some (InterviewFlow.create_end_node ()), true⟩, false, true⟩ ∧
    InterviewData.is_complete ⟨n, h⟩ = true := by
  refine ⟨rfl, ?_⟩
  simp [InterviewData.is_complete]
  exact ⟨hn, hh⟩

theorem c1_valid_sequence_union_witness :
    Handlers.run_interview "Grace" "Founded X, acquired by Y" =
      .ok ⟨⟨"Grace", "Founded X, acquired by Y"⟩,
        ⟨[("name", "Grace"), ("startup_history", "Founded X, acquired by Y")],
          some "end", some (InterviewFlow.create_end_node ()), true⟩,
        false, true⟩ ∧
    InterviewData.is_complete ⟨"Grace", "Founded X, acquired by Y"⟩ = true :=
  c1_valid_sequence_union "Grace" "Founded X, acquired by Y"
    (by decide) (by decide)

/-- Claim C2 counterexample: with the initial node active, calling
collect_name with the empty string succeeds (no ArgumentError exists in the
code), the name field is assigned the empty string, and the flow advances
to the startup_history node rather than remaining at initial. -/
theorem c2_empty_name_succeeds_ce :
    (Handlers.dispatch (Handlers.on_first_participant_joined Handlers.fresh_state)
        (Handlers.FnCall.collect_name [("name", "")])).toOption.map
      (fun st => (st.fm.current_node, st.data.name)) =
    some (some "startup_history", "") := rfl

/-- Claim C2 as amended: collect_name performs no emptiness validation —
for every name string, including the empty one, the call succeeds, assigns
the string to the session name field, and the transition advances the flow
to the startup_history node; only a missing name key fails (KeyError). -/
theorem c2_empty_name_no_argument_error :
    (∀ d : InterviewData,
      InterviewFlow.collect_name [] d = .error "KeyError: name") ∧
    (∀ (st : Handlers.SysState) (s : String),
      Handlers.dispatch st (Handlers.FnCall.collect_name [("name", s)]) =
        .ok { st with
          data := { st.data with name := s }
          fm := InterviewFlow.handle_name_collection [("name", s)] ⟨s⟩ st.fm }) :=
  ⟨fun _ => rfl, fun _ _ => rfl⟩

/-- Claim C3 counterexample: after collect_name succeeds and the
startup_history node is active, calling collect_name again succeeds — it is
dispatched to the handler, overwrites the session name, and re-activates
the startup_history node; it does not fail with InvalidTransition (no such
error exists in the code). -/
theorem c3_second_collect_name_succeeds_ce :
    (Handlers.dispatch (Handlers.on_first_participant_joined Handlers.fresh_state)
        (Handlers.FnCall.collect_name [("name", "Ada Lovelace")])).toOption.map
      (fun st => st.fm.current_node) = some (some "startup_history") ∧
    ((Handlers.dispatch (Handlers.on_first_participant_joined Handlers.fresh_state)
        (Handlers.FnCall.collect_name [("name", "Ada Lovelace")]) >>= fun st =>
      Handlers.dispatch st
        (Handlers.FnCall.collect_name [("name", "Grace Hopper")])).toOption.map
      (fun st => (st.fm.current_node, st.data.name))) =
    some (some "startup_history", "Grace Hopper") := ⟨rfl, rfl⟩

/-- Claim C3 as amended: the code performs no node-membership check — a
function call is dispatched to its registered handler regardless of the
active node.  In particular, from any state in which the startup_history
node is active, a collect_name call with any name succeeds, overwrites the
session name, and re-activates the startup_history node. -/
theorem c3_no_invalid_transition :
    ∀ (st : Handlers.SysState) (s : String),
      (Handlers.dispatch
        { st with fm := (st.fm.set_node "startup_history"
            (InterviewFlow.create_startup_history_node ())) }
        (Handlers.FnCall.collect_name [("name", s)])).toOption.map
        (fun st2 => (st2.fm.current_node, st2.data.name)) =
      some (some "startup_history", s) :=
  fun _ _ => rfl

/-- Claim C4 counterexample: after the flow has advanced to the
startup_history node, a duplicate first-participant-joined event does not
fail — it completes and resets the current node back to initial, so the
current node is changed by the duplicate event (no AlreadyInitialized error
exists in the code). -/
theorem c4_second_join_resets_node_ce :
    (Handlers.dispatch (Handlers.on_first_participant_joined Handlers.fresh_state)
        (Handlers.FnCall.collect_name [("name", "Ada Lovelace")])).toOption.map
      (fun st => st.fm.current_node) = some (some "startup_history") ∧
    (Handlers.dispatch (Handlers.on_first_participant_joined Handlers.fresh_state)
        (Handlers.FnCall.collect_name [("name", "Ada Lovelace")])).toOption.map
      (fun st => ((Handlers.on_first_participant_joined st).fm.current_node,
        (Handlers.on_first_participant_joined st).fm.init_done)) =
    some (some "initial", true) := ⟨rfl, rfl⟩

/-- Claim C4 as amended: on_first_participant_joined is unguarded — from
every session state, initialized or not, it completes without error and
unconditionally re-runs initialization and set_node, resetting the current
node to initial (restarting the flow); the session data is untouched. -/
theorem c4_rejoin_restarts_flow :
    ∀ st : Handlers.SysState,
      Handlers.on_first_participant_joined st =
        { st with
          transcription_captured := true
          fm := { st.fm with
            init_done := true
            current_node := some "initial"
            node := some (InterviewFlow.create_initial_node ()) } } :=
  fun _ => rfl

/-- Claim C5: the transition dispatcher is the fixed linear map — after a
collect_name result it mirrors result.name into the flow-manager state map
and activates the startup_history node; after a collect_startup_history
result it mirrors result.startup_history and activates the summary node;
after an end_call result it activates the end node, whose post-action list
is exactly the end_conversation action. -/
theorem c5_transition_dispatcher_linear :
    (∀ (a : FlowArgs) (r : NameCollectionResult) (fm : FlowManager),
      InterviewFlow.handle_name_collection a r fm =
        { fm with
          state := setItem fm.state "name" r.name
          current_node := some "startup_history"
          node := some (InterviewFlow.create_startup_history_node ()) }) ∧
    (∀ (a : FlowArgs) (r : StartupHistoryResult) (fm : FlowManager),
      InterviewFlow.handle_startup_history_collection a r fm =
        { fm with
          state := setItem fm.state "startup_history" r.startup_history
          current_node := some "summary"
          node := some (InterviewFlow.create_summary_node ()) }) ∧
    (∀ (a : FlowArgs) (r : EndCallResult) (fm : FlowManager),
      InterviewFlow.handle_end_call a r fm =
        { fm with
          current_node := some "end"
          node := some (InterviewFlow.create_end_node ()) }) ∧
    (InterviewFlow.create_end_node ()).post_actions =
      some [⟨"end_conversation"⟩] :=
  ⟨fun _ _ _ => rfl, fun _ _ _ => rfl, fun _ _ _ => rfl, rfl⟩

/-- Claim C6: observer-sink delivery failure never propagates — for every
effects environment, including ones whose clock read or frame queueing
raises, push_rtvi_data returns normally, and the session-data mutation and
result of each main-module handler are identical under any two effects
environments. -/
theorem c6_observer_failure_isolated :
    (∀ (eff : Main.RtviEffects) (fm : FlowManager) (fname : String)
        (res args : StrDict) (d : InterviewData) (cn : Option String),
      (Main.push_rtvi_data eff fm fname res args d cn).toOption.isSome = true) ∧
    (∀ (eff eff2 : Main.RtviEffects) (fm : FlowManager) (args : FlowArgs)
        (d : InterviewData),
      drop_log (Main.collect_name eff fm args d) =
        drop_log (Main.collect_name eff2 fm args d)) ∧
    (∀ (eff eff2 : Main.RtviEffects) (fm : FlowManager) (args : FlowArgs)
        (d : InterviewData),
      drop_log (Main.collect_startup_history eff fm args d) =
        drop_log (Main.collect_startup_history eff2 fm args d)) ∧
    (∀ (eff eff2 : Main.RtviEffects) (fm : FlowManager) (args : FlowArgs)
        (d : InterviewData),
      drop_log (Main.end_call eff fm args d) =
        drop_log (Main.end_call eff2 fm args d)) := by
  refine ⟨?_, ?_, ?_, ?_⟩
  · intro eff fm fname res args d cn
    obtain ⟨msg, hmsg⟩ := push_rtvi_isOk eff fm fname res args d cn
    simp [hmsg, Except.toOption]
  · intro eff eff2 fm args d
    cases hg : getItem args "name" with
    | error e => simp [Main.collect_name, hg, drop_log, Bind.bind, Except.bind, Functor.map, Except.map, Pure.pure, Except.pure]
    | ok n =>
        obtain ⟨m1, h1⟩ :=
          push_rtvi_isOk eff fm "collect_name" [("name", n)] args
            { d with name := n } (some "initial")
        obtain ⟨m2, h2⟩ :=
          push_rtvi_isOk eff2 fm "collect_name" [("name", n)] args
            { d with name := n } (some "initial")
        simp [Main.collect_name, hg, h1, h2, drop_log, Bind.bind, Except.bind, Functor.map, Except.map, Pure.pure, Except.pure]
  · intro eff eff2 fm args d
    cases hg : getItem args "startup_history" with
    | error e => simp [Main.collect_startup_history, hg, drop_log, Bind.bind, Except.bind, Functor.map, Except.map, Pure.pure, Except.pure]
    | ok n =>
        obtain ⟨m1, h1⟩ :=
          push_rtvi_isOk eff fm "collect_startup_history"
            [("startup_history", n)] args { d with startup_history := n }
            (some "startup_history")
        obtain ⟨m2, h2⟩ :=
          push_rtvi_isOk eff2 fm "collect_startup_history"
            [("startup_history", n)] args { d with startup_history := n }
            (some "startup_history")
        simp [Main.collect_startup_history, hg, h1, h2, drop_log, Bind.bind, Except.bind, Functor.map, Except.map, Pure.pure, Except.pure]
  · intro eff eff2 fm args d
    obtain ⟨m1, h1⟩ :=
      push_rtvi_isOk eff fm "end_call" [("status", "completed")] args d
        (some "summary")
    obtain ⟨m2, h2⟩ :=
      push_rtvi_isOk eff2 fm "end_call" [("status", "completed")] args d
        (some "summary")
    simp [Main.end_call, h1, h2, drop_log, InterviewData.to_dict, getItem, Bind.bind, Except.bind, Functor.map, Except.map, Pure.pure, Except.pure]

/-- Claim C7: the participant-left handler completes without raising from
every session state, emits the to_dict snapshot (whose unset fields are the
empty string, never a missing key), and cancels the pipeline task; on a
fresh session the snapshot holds empty strings for both fields. -/
theorem c7_participant_left_total_snapshot :
    (∀ st : Handlers.SysState,
      Handlers.on_participant_left st =
        .ok (st.data.to_dict,
          ["Name: " ++
            (if st.data.name == "" then "Not provided" else st.data.name),
           "Startup History: " ++
            (if st.data.startup_history == "" then "Not provided"
             else st.data.startup_history)],
          { st with task_cancelled := true })) ∧
    (Handlers.on_participant_left Handlers.fresh_state).toOption.map
      (fun t => t.1) = some [("name", ""), ("startup_history", "")] :=
  ⟨fun _ => rfl, rfl⟩

/-- Claim C8: end_call returns status "completed" and leaves the session
data unchanged, for every session state, in both source modules (the main
module's version additionally returns an observer log line, dropped here). -/
theorem c8_end_call_frame :
    (∀ (args : FlowArgs) (d : InterviewData),
      InterviewFlow.end_call args d = .ok (d, ⟨"completed"⟩)) ∧
    (∀ (eff : Main.RtviEffects) (fm : FlowManager) (args : FlowArgs)
        (d : InterviewData),
      drop_log (Main.end_call eff fm args d) = .ok (d, ⟨"completed"⟩)) := by
  refine ⟨fun _ _ => rfl, ?_⟩
  intro eff fm args d
  obtain ⟨m1, h1⟩ :=
    push_rtvi_isOk eff fm "end_call" [("status", "completed")] args d
      (some "summary")
  simp [Main.end_call, h1, drop_log, InterviewData.to_dict, getItem, Bind.bind, Except.bind, Functor.map, Except.map, Pure.pure, Except.pure]

/-- Claim C9: the node-catalog factory functions are pure and deterministic
— any two calls of each constructor, in either source module, yield
structurally equal node configurations. -/
theorem c9_node_catalog_pure :
    (∀ u v : Unit,
      InterviewFlow.create_initial_node u = InterviewFlow.create_initial_node v) ∧
    (∀ u v : Unit,
      InterviewFlow.create_startup_history_node u =
        InterviewFlow.create_startup_history_node v) ∧
    (∀ u v : Unit,
      InterviewFlow.create_summary_node u = InterviewFlow.create_summary_node v) ∧
    (∀ u v : Unit,
      InterviewFlow.create_end_node u = InterviewFlow.create_end_node v) ∧
    (∀ u v : Unit,
      Main.create_initial_node u = Main.create_initial_node v) ∧
    (∀ u v : Unit,
      Main.create_startup_history_node u = Main.create_startup_history_node v) ∧
    (∀ u v : Unit,
      Main.create_summary_node u = Main.create_summary_node v) ∧
    (∀ u v : Unit, Main.create_end_node u = Main.create_end_node v) :=
  ⟨fun _ _ => rfl, fun _ _ => rfl, fun _ _ => rfl, fun _ _ => rfl,
   fun _ _ => rfl, fun _ _ => rfl, fun _ _ => rfl, fun _ _ => rfl⟩

/-- Claim C10: the two copies of the flow module are behaviorally
equivalent — each main-module handler performs the same session-data
mutation and returns the same result value as its flows counterpart (the
main version differing only by the observer log line, dropped here), and
the corresponding node constructors agree on messages, function schemas and
post-actions (the handler-reference bindings being the only difference). -/
theorem c10_modules_equivalent :
    (∀ (eff : Main.RtviEffects) (fm : FlowManager) (args : FlowArgs)
        (d : InterviewData),
      drop_log (Main.collect_name eff fm args d) =
        InterviewFlow.collect_name args d) ∧
    (∀ (eff : Main.RtviEffects) (fm : FlowManager) (args : FlowArgs)
        (d : InterviewData),
      drop_log (Main.collect_startup_history eff fm args d) =
        InterviewFlow.collect_startup_history args d) ∧
    (∀ (eff : Main.RtviEffects) (fm : FlowManager) (args : FlowArgs)
        (d : InterviewData),
      drop_log (Main.end_call eff fm args d) =
        InterviewFlow.end_call args d) ∧
    (Main.create_initial_node ()).public_view =
      (InterviewFlow.create_initial_node ()).public_view ∧
    (Main.create_startup_history_node ()).public_view =
      (InterviewFlow.create_startup_history_node ()).public_view ∧
    (Main.create_summary_node ()).public_view =
      (InterviewFlow.create_summary_node ()).public_view ∧
    (Main.create_end_node ()).public_view =
      (InterviewFlow.create_end_node ()).public_view := by
  refine ⟨?_, ?_, ?_, rfl, rfl, rfl, rfl⟩
  · intro eff fm args d
    cases hg : getItem args "name" with
    | error e =>
        simp [Main.collect_name, InterviewFlow.collect_name, hg, drop_log, Bind.bind, Except.bind, Functor.map, Except.map, Pure.pure, Except.pure]
    | ok n =>
        obtain ⟨m1, h1⟩ :=
          push_rtvi_isOk eff fm "collect_name" [("name", n)] args
            { d with name := n } (some "initial")
        simp [Main.collect_name, InterviewFlow.collect_name, hg, h1, drop_log, Bind.bind, Except.bind, Functor.map, Except.map, Pure.pure, Except.pure]
  · intro eff fm args d
    cases hg : getItem args "startup_history" with
    | error e =>
        simp [Main.collect_startup_history,
          InterviewFlow.collect_startup_history, hg, drop_log, Bind.bind, Except.bind, Functor.map, Except.map, Pure.pure, Except.pure]
    | ok n =>
        obtain ⟨m1, h1⟩ :=
          push_rtvi_isOk eff fm "collect_startup_history"
            [("startup_history", n)] args { d with startup_history := n }
            (some "startup_history")
        simp [Main.collect_startup_history,
          InterviewFlow.collect_startup_history, hg, h1, drop_log, Bind.bind, Except.bind, Functor.map, Except.map, Pure.pure, Except.pure]
  · intro eff fm args d
    obtain ⟨m1, h1⟩ :=
      push_rtvi_isOk eff fm "end_call" [("status", "completed")] args d
        (some "summary")
    simp [Main.end_call, InterviewFlow.end_call, h1, drop_log,
      InterviewData.to_dict, getItem, Bind.bind, Except.bind, Functor.map,
      Except.map, Pure.pure, Except.pure]

end FlowBot
